import Mathlib

/-!
Shallow embedding of `src/scripts/box_operations.py` (module `box_operations`).

The module holds three functions: `get_box_client` (OAuth2 client factory),
`download_box_files` (bulk download from a Box folder to a local directory)
and `upload_file_to_box` (single-file upload).  The remote Box API and the
local filesystem are external collaborators; their behaviour is supplied as
explicit oracle data (`DownloadWorld`, `UploadWorld`), and every observable
side effect (network call, filesystem write, console print) is recorded in
an event trace so that claims about effects are statable.

A Python exception that escapes a function is modelled by the `Except.error`
constructor of the function result; exceptions caught by a `try/except`
block in the source are modelled by the corresponding `match` on the oracle
outcome, mirroring the source line by line.
-/

namespace BoxOps

/-- A local filesystem path, as a list of components; `os.path.join a b`
is `a ++ [b]` and `os.path.basename` is the last component. -/
abbrev Path := List String

/-- The three environment variables read at module import
(lines 11-13 of the source); `none` models an unset variable. -/
structure Env where
  BOX_CLIENT_ID : Option String
  BOX_CLIENT_SECRET : Option String
  BOX_REFRESH_TOKEN : Option String
deriving Repr, DecidableEq

/-- Python truthiness of an optional string, as used by
`all([BOX_CLIENT_ID, BOX_CLIENT_SECRET, BOX_REFRESH_TOKEN])` on line 38:
`None` and the empty string are falsy. -/
def truthy : Option String → Bool
  | none => false
  | some s => !s.isEmpty

/-- A Python exception as observed by the `except` clauses of the source:
`boxAPI` is `BoxAPIException` with its `status` and `message` fields,
`other` is any other exception with its display text. -/
inductive PyExn where
  | boxAPI (status : Nat) (message : String)
  | other (msg : String)
deriving Repr, DecidableEq

/-- An observable side effect of one call: a console print, a remote API
round-trip, or a local filesystem mutation. -/
inductive Event where
  | log (msg : String)
  | netFolderGet (folderId : String)
  | netItemFetch (itemName : String)
  | netUpload (folderId fileName : String)
  | fsMakeDirs (dir : Path)
  | fsWriteFile (path : Path) (content : List Nat)
deriving Repr, DecidableEq

/-- Whether an event is a network round-trip to the remote API. -/
def Event.isNet : Event → Bool
  | .netFolderGet _ => true
  | .netItemFetch _ => true
  | .netUpload _ _ => true
  | _ => false

/-- Whether an event writes a local file. -/
def Event.isWrite : Event → Bool
  | .fsWriteFile _ _ => true
  | _ => false

/-- Whether an event writes the local file at path `p`. -/
def Event.writesAt (e : Event) (p : Path) : Bool :=
  match e with
  | .fsWriteFile q _ => q = p
  | _ => false

/-- Whether an event fetches the remote item named `n`. -/
def Event.fetches (e : Event) (n : String) : Bool :=
  match e with
  | .netItemFetch m => m = n
  | _ => false

/-- The local filesystem: a set of existing directories and a map from file
paths to byte contents (association list, most recent binding first). -/
structure FS where
  dirs : List Path
  files : List (Path × List Nat)
deriving Repr, DecidableEq

/-- Content of the file at `p`, if one exists. -/
def FS.lookupFile (fs : FS) (p : Path) : Option (List Nat) :=
  (fs.files.find? (fun pr => pr.1 = p)).map (fun pr => pr.2)

/-- `os.path.exists`: true when a file or directory exists at `p`
(this call reports `False` on OS errors rather than raising). -/
def FS.existsPath (fs : FS) (p : Path) : Bool :=
  fs.files.any (fun pr => pr.1 = p) || fs.dirs.any (fun d => d = p)

/-- All nonempty ancestor prefixes of a path, the path itself included. -/
def ancestors (p : Path) : List Path :=
  (List.range p.length).map (fun i => p.take (i + 1))

/-- `os.makedirs(target_dir, exist_ok=True)` (line 89): creates the
directory and every missing ancestor. -/
def FS.makedirs (fs : FS) (p : Path) : FS :=
  { fs with dirs := ancestors p ++ fs.dirs }

/-- `open(file_path, "wb")` followed by a full write (lines 105-106):
creates or overwrites the file at `p` with content `c`. -/
def FS.writeFile (fs : FS) (p : Path) (c : List Nat) : FS :=
  { fs with files := (p, c) :: fs.files.filter (fun pr => pr.1 ≠ p) }

/-- The module log text for missing credentials (line 39). -/
def msgMissingCreds : String :=
  "ERROR: One or more required Box OAuth2 environment variables (CLIENT_ID, CLIENT_SECRET, REFRESH_TOKEN) are missing from .env."

/-- The second missing-credentials log line (line 40). -/
def msgMissingCreds2 : String :=
  "Ensure BOX_CLIENT_ID, BOX_CLIENT_SECRET are set from your Box App config, and BOX_REFRESH_TOKEN is obtained via get_box_tokens.py."

/-- The `all([BOX_CLIENT_ID, BOX_CLIENT_SECRET, BOX_REFRESH_TOKEN])`
presence test of line 38. -/
def credsPresent (env : Env) : Bool :=
  truthy env.BOX_CLIENT_ID && truthy env.BOX_CLIENT_SECRET &&
  truthy env.BOX_REFRESH_TOKEN

/-- `get_box_client` (lines 33-57).  `authException` is the oracle for
whether the `OAuth2`/`Client` construction inside the `try` block raises
(and with what display text); these constructors are local object
construction and perform no network round-trip, so the factory emits no
network event.  Returns the optional client (modelled as `Unit`, since the
client carries no data the rest of the module inspects) and the trace. -/
def get_box_client (env : Env) (authException : Option String) :
    Option Unit × List Event :=
  if !(credsPresent env) then
    (none, [Event.log msgMissingCreds, Event.log msgMissingCreds2])
  else
    match authException with
    | some e =>
        (none,
         [Event.log ("Error authenticating with Box using OAuth2 Refresh Token: " ++ e),
          Event.log "Possible causes: Invalid BOX_CLIENT_ID, BOX_CLIENT_SECRET, or expired/invalid BOX_REFRESH_TOKEN.",
          Event.log "If BOX_REFRESH_TOKEN is invalid, re-run get_box_tokens.py to get a new one."])
    | none => (some (), [])

deriving instance DecidableEq for Except

/-- One item yielded by `folder.get_items()` together with the oracle for
its per-item remote and local behaviour: `type` and `name` are the item
metadata, `content` the bytes `download_to` would produce, `fetchException`
whether `download_to` raises (line 102), `writeException` whether opening
the local file for writing raises (line 105). -/
structure BoxItemBehavior where
  name : String
  type : String
  content : List Nat
  fetchException : Option String
  writeException : Option String
deriving Repr, DecidableEq

/-- The behaviour of the remote API and local filesystem during one
`download_box_files` call: the credential environment, whether client
construction raises, the outcome of `client.folder(folder_id).get()`
(folder name on success), the items the folder enumeration yields, whether
the enumeration itself raises after yielding them (pagination happens
outside any `try` block), and whether `os.makedirs` raises (also outside
any `try` block). -/
structure DownloadWorld where
  env : Env
  authException : Option String
  folderResolution : Except PyExn String
  items : List BoxItemBehavior
  enumException : Option String
  makedirsException : Option String
deriving Repr, DecidableEq

/-- Python `s.startswith(pre)`, computed on the character lists of the
two strings. -/
def startswith (s pre : String) : Bool :=
  pre.data.isPrefixOf s.data

/-- The prefix test of line 95:
`if file_prefix_filter and not file_item.name.startswith(file_prefix_filter): continue`.
A `None` or empty-string filter is falsy and skips nothing. -/
def prefixSkips (pfx : Option String) (name : String) : Bool :=
  match pfx with
  | none => false
  | some p => !p.isEmpty && !(startswith name p)

/-- The 404 hint printed on folder resolution failure (line 81). -/
def hint404 : String :=
  "Please ensure the folder ID is correct and the Box application has access."

/-- The 401 hint printed on folder resolution failure (line 83). -/
def hint401 : String :=
  "Authentication error. Please check your Box OAuth2 credentials and application authorization."

/-- The `for file_item in folder.get_items():` loop body (lines 93-110):
skips non-file items, applies the prefix filter, fetches and writes each
remaining item, and catches per-item failures (lines 108-110), skipping
the item and continuing.  Returns the filesystem after the loop, the
`downloaded_files` accumulator in enumeration order, and the trace. -/
def downloadLoop (targetDir : Path) (pfx : Option String) :
    FS → List BoxItemBehavior → FS × List String × List Event
  | fs, [] => (fs, [], [])
  | fs, item :: rest =>
    if item.type = "file" then
      if prefixSkips pfx item.name then
        let r := downloadLoop targetDir pfx fs rest
        (r.1, r.2.1,
         Event.log ("Skipping: " ++ item.name ++ " (does not match the prefix filter)") :: r.2.2)
      else
        match item.fetchException with
        | some e =>
            let r := downloadLoop targetDir pfx fs rest
            (r.1, r.2.1,
             Event.log ("Downloading: " ++ item.name) ::
             Event.netItemFetch item.name ::
             Event.log ("ERROR: Failed to download " ++ item.name ++ ": " ++ e) :: r.2.2)
        | none =>
            match item.writeException with
            | some e =>
                let r := downloadLoop targetDir pfx fs rest
                (r.1, r.2.1,
                 Event.log ("Downloading: " ++ item.name) ::
                 Event.netItemFetch item.name ::
                 Event.log ("ERROR: Failed to download " ++ item.name ++ ": " ++ e) :: r.2.2)
            | none =>
                let path := targetDir ++ [item.name]
                let fs1 := fs.writeFile path item.content
                let r := downloadLoop targetDir pfx fs1 rest
                (r.1, item.name :: r.2.1,
                 Event.log ("Downloading: " ++ item.name) ::
                 Event.netItemFetch item.name ::
                 Event.fsWriteFile path item.content :: r.2.2)
    else
      downloadLoop targetDir pfx fs rest

/-- `download_box_files(folder_id, target_dir, file_prefix_filter)`
(lines 59-112).  Returns `Except.ok` with the `downloaded_files` list when
the function returns normally, `Except.error` when a Python exception
escapes to the caller (possible only from `os.makedirs` on line 89 and
from the `folder.get_items()` iteration on line 93, both outside every
`try` block), together with the final filesystem and the event trace. -/
def download_box_files (w : DownloadWorld) (folderId : String)
    (targetDir : Path) (pfx : Option String) (fs0 : FS) :
    Except String (List String) × FS × List Event :=
  let c := get_box_client w.env w.authException
  match c.1 with
  | none => (.ok [], fs0, c.2)
  | some _ =>
    let evs2 := c.2 ++ [Event.netFolderGet folderId]
    match w.folderResolution with
    | .error (PyExn.boxAPI status message) =>
        (.ok [], fs0,
         evs2 ++
         [Event.log ("ERROR: Box API access failed for folder ID " ++
                     (folderId ++ (": " ++ (toString status ++ (" - " ++ message)))))] ++
         (if status = 404 then [Event.log hint404]
          else if status = 401 then [Event.log hint401]
          else []))
    | .error (PyExn.other msg) =>
        (.ok [], fs0,
         evs2 ++
         [Event.log ("An unexpected error occurred while accessing Box folder ID " ++
                     folderId ++ ": " ++ msg)])
    | .ok folderName =>
        let evs3 := evs2 ++
          [Event.log ("Accessing Box folder " ++ folderName ++ " (ID: " ++ folderId ++ ")...")]
        match w.makedirsException with
        | some e => (.error e, fs0, evs3)
        | none =>
            let fs1 := fs0.makedirs targetDir
            let evs4 := evs3 ++
              [Event.fsMakeDirs targetDir,
               Event.log ("Checking files in Box folder " ++ folderName ++ "...")]
            let r := downloadLoop targetDir pfx fs1 w.items
            match w.enumException with
            | some e => (.error e, r.1, evs4 ++ r.2.2)
            | none =>
                (.ok r.2.1, r.1,
                 evs4 ++ r.2.2 ++ [Event.log "Downloaded files listed."])

/-- A remote Box file handle as returned by `folder.upload`: the new file
identifier assigned by the remote API, and the name, which Box sets to the
`file_name` argument the call supplies. -/
structure BoxFile where
  id : String
  name : String
deriving Repr, DecidableEq

/-- The behaviour of the remote API during one `upload_file_to_box` call:
the credential environment, whether client construction raises, the
outcome of `client.folder(folder_id).get()`, and the outcome of
`folder.upload` (the new file identifier on success). -/
structure UploadWorld where
  env : Env
  authException : Option String
  folderResolution : Except PyExn String
  uploadResult : Except PyExn String
deriving Repr, DecidableEq

/-- `os.path.basename` on a component path: the last component. -/
def basename (p : Path) : String := p.getLastD ""

/-- `upload_file_to_box(folder_id, file_path)` (lines 114-148).  Every
operation that can raise sits inside the `try` block of lines 134-148
(`os.path.exists` reports errors as `False` and `os.path.basename` is
pure), so no exception escapes: the result carries `Except` only to make
that fact statable, and every branch returns `Except.ok`. -/
def upload_file_to_box (w : UploadWorld) (folderId : String)
    (filePath : Path) (fs : FS) :
    Except String (Option BoxFile) × List Event :=
  let c := get_box_client w.env w.authException
  match c.1 with
  | none => (.ok none, c.2)
  | some _ =>
    if !(fs.existsPath filePath) then
      (.ok none,
       c.2 ++ [Event.log ("ERROR: Local file not found for upload: " ++ basename filePath)])
    else
      let fileName := basename filePath
      match w.folderResolution with
      | .error (PyExn.boxAPI status message) =>
          (.ok none,
           c.2 ++ [Event.netFolderGet folderId,
                   Event.log ("ERROR: Box API upload failed for file " ++ fileName ++
                              " to folder ID " ++ folderId ++ ": " ++ toString status ++
                              " - " ++ message)] ++
           (if status = 404 then
              [Event.log "Please ensure the upload folder ID is correct and exists."]
            else if status = 403 then
              [Event.log "Permission denied. Please check your Box application permissions for write access."]
            else []))
      | .error (PyExn.other msg) =>
          (.ok none,
           c.2 ++ [Event.netFolderGet folderId,
                   Event.log ("An unexpected error occurred during upload of " ++
                              fileName ++ ": " ++ msg)])
      | .ok folderName =>
          match w.uploadResult with
          | .error (PyExn.boxAPI status message) =>
              (.ok none,
               c.2 ++ [Event.netFolderGet folderId, Event.netUpload folderId fileName,
                       Event.log ("ERROR: Box API upload failed for file " ++ fileName ++
                                  " to folder ID " ++ folderId ++ ": " ++ toString status ++
                                  " - " ++ message)] ++
               (if status = 404 then
                  [Event.log "Please ensure the upload folder ID is correct and exists."]
                else if status = 403 then
                  [Event.log "Permission denied. Please check your Box application permissions for write access."]
                else []))
          | .error (PyExn.other msg) =>
              (.ok none,
               c.2 ++ [Event.netFolderGet folderId, Event.netUpload folderId fileName,
                       Event.log ("An unexpected error occurred during upload of " ++
                                  fileName ++ ": " ++ msg)])
          | .ok newId =>
              (.ok (some { id := newId, name := fileName }),
               c.2 ++ [Event.netFolderGet folderId, Event.netUpload folderId fileName,
                       Event.log ("Uploaded file " ++ fileName ++ " to Box folder " ++
                                  folderName ++ " (ID: " ++ folderId ++
                                  ") with file ID: " ++ newId)])

/-- Whether an `Except` result is the normal-return case. -/
def exceptOk {ε α : Type} : Except ε α → Bool
  | .ok _ => true
  | .error _ => false

/-- An item both selected by the loop (file type, prefix accepted) and
successfully fetched and written; exactly these names end up in
`downloaded_files`. -/
def itemSucceeds (pfx : Option String) (it : BoxItemBehavior) : Bool :=
  (it.type = "file" : Bool) && !(prefixSkips pfx it.name) &&
  (it.fetchException = none : Bool) && (it.writeException = none : Bool)

/-- An item selected by the loop (file type, prefix accepted); exactly
these items have their local path possibly written. -/
def itemSelected (pfx : Option String) (it : BoxItemBehavior) : Bool :=
  (it.type = "file" : Bool) && !(prefixSkips pfx it.name)

/-- An empty local filesystem, the starting state of the concrete
scenarios. -/
def fsEmpty : FS := { dirs := [], files := [] }

/-- A credential environment with all three variables set and nonempty. -/
def envOK : Env :=
  { BOX_CLIENT_ID := some "cid", BOX_CLIENT_SECRET := some "csec",
    BOX_REFRESH_TOKEN := some "rtok" }

/-- The folder contents of the spec's concrete prefix-filter scenario:
three file-type items, all of whose fetches and writes succeed. -/
def itemsPrefixScenario : List BoxItemBehavior :=
  [{ name := "cleaned_a.csv", type := "file", content := [10],
     fetchException := none, writeException := none },
   { name := "b.csv", type := "file", content := [20],
     fetchException := none, writeException := none },
   { name := "cleaned_c.txt", type := "file", content := [30],
     fetchException := none, writeException := none }]

/-- The world of the concrete prefix-filter scenario: valid credentials,
successful folder resolution, no local failures. -/
def wPrefixScenario : DownloadWorld :=
  { env := envOK, authException := none, folderResolution := .ok "Data",
    items := itemsPrefixScenario, enumException := none,
    makedirsException := none }

/-- The world of the spec's partial-failure scenario: three file-type
items with the second item's remote fetch raising. -/
def wItemFailScenario : DownloadWorld :=
  { env := envOK, authException := none, folderResolution := .ok "Data",
    items :=
      [{ name := "a.csv", type := "file", content := [1],
         fetchException := none, writeException := none },
       { name := "b.csv", type := "file", content := [2],
         fetchException := some "BoxAPIException: 502", writeException := none },
       { name := "c.csv", type := "file", content := [3],
         fetchException := none, writeException := none }],
    enumException := none, makedirsException := none }

/-- A world in which everything remote succeeds but the local
`os.makedirs` call raises. -/
def wMakedirsFails : DownloadWorld :=
  { env := envOK, authException := none, folderResolution := .ok "Data",
    items := [], enumException := none,
    makedirsException := some "PermissionError: denied" }

/-- A world whose folder resolution is rejected with HTTP 404. -/
def wNotFound : DownloadWorld :=
  { env := envOK, authException := none,
    folderResolution := .error (PyExn.boxAPI 404 "Not Found"),
    items := [], enumException := none, makedirsException := none }

/-- A world whose folder resolution is rejected with HTTP 401. -/
def wUnauthorized : DownloadWorld :=
  { env := envOK, authException := none,
    folderResolution := .error (PyExn.boxAPI 401 "Unauthorized"),
    items := [], enumException := none, makedirsException := none }

/-- A world whose client construction raises, so the factory yields no
client. -/
def wNoClient : DownloadWorld :=
  { env := envOK, authException := some "BoxOAuthException",
    folderResolution := .ok "Data",
    items := [], enumException := none, makedirsException := none }

/-- A local filesystem holding one file, used by the upload scenarios. -/
def fsWithFile : FS :=
  { dirs := [["out"]], files := [(["out", "res.csv"], [7, 8])] }

/-- An upload world in which the remote accepts the file and assigns a
new identifier. -/
def wUploadOK : UploadWorld :=
  { env := envOK, authException := none, folderResolution := .ok "Results",
    uploadResult := .ok "987654" }

/-- Dropping the entries at path `q` does not change a lookup at a path
other than `q`. -/
theorem find?_filter_of_ne (l : List (Path × List Nat)) (q p : Path) (h : p ≠ q) :
    (l.filter (fun pr => pr.1 ≠ q)).find? (fun pr => pr.1 = p) =
    l.find? (fun pr => pr.1 = p) := by
  induction l with
  | nil => rfl
  | cons hd tl ih =>
      by_cases h1 : hd.1 = q
      · have h2 : hd.1 ≠ p := by
          rw [h1]
          exact fun e => h e.symm
        rw [List.filter_cons_of_neg (by simp [h1]),
            List.find?_cons_of_neg _ (by simp [h2]), ih]
      · rw [List.filter_cons_of_pos (by simp [h1])]
        by_cases h2 : hd.1 = p
        · rw [List.find?_cons_of_pos _ (by simp [h2]),
              List.find?_cons_of_pos _ (by simp [h2])]
        · rw [List.find?_cons_of_neg _ (by simp [h2]),
              List.find?_cons_of_neg _ (by simp [h2]), ih]

/-- Writing one file changes exactly its own path in the file map. -/
theorem FS.lookupFile_writeFile (fs : FS) (q p : Path) (c : List Nat) :
    (fs.writeFile q c).lookupFile p = if p = q then some c else fs.lookupFile p := by
  unfold FS.lookupFile FS.writeFile
  by_cases h : p = q
  · subst h
    rw [if_pos rfl, List.find?_cons_of_pos _ (by simp)]
    rfl
  · rw [if_neg h, List.find?_cons_of_neg _ (by simp [Ne.symm h]),
        find?_filter_of_ne _ _ _ h]

/-- The download loop returns, in enumeration order, exactly the names of
the items that are file-typed, pass the prefix filter, and whose fetch and
write both succeed. -/
theorem downloadLoop_names (td : Path) (pfx : Option String) (fs : FS)
    (items : List BoxItemBehavior) :
    (downloadLoop td pfx fs items).2.1 =
      (items.filter (itemSucceeds pfx)).map BoxItemBehavior.name := by
  induction items generalizing fs with
  | nil => simp [downloadLoop]
  | cons it rest ih =>
      by_cases hty : it.type = "file"
      · by_cases hskip : prefixSkips pfx it.name = true
        · simp [downloadLoop, hty, hskip, ih, List.filter_cons, itemSucceeds]
        · cases hf : it.fetchException with
          | some e =>
              simp [downloadLoop, hty, hskip, hf, ih, List.filter_cons, itemSucceeds]
          | none =>
              cases hw : it.writeException with
              | some e =>
                  simp [downloadLoop, hty, hskip, hf, hw, ih, List.filter_cons, itemSucceeds]
              | none =>
                  simp [downloadLoop, hty, hskip, hf, hw, ih, List.filter_cons, itemSucceeds]
      · simp [downloadLoop, hty, ih, List.filter_cons, itemSucceeds]

/-- The download loop never touches the directory set. -/
theorem downloadLoop_dirs (td : Path) (pfx : Option String) (fs : FS)
    (items : List BoxItemBehavior) :
    (downloadLoop td pfx fs items).1.dirs = fs.dirs := by
  induction items generalizing fs with
  | nil => simp [downloadLoop]
  | cons it rest ih =>
      by_cases hty : it.type = "file"
      · by_cases hskip : prefixSkips pfx it.name = true
        · simp [downloadLoop, hty, hskip, ih]
        · cases hf : it.fetchException with
          | some e => simp [downloadLoop, hty, hskip, hf, ih]
          | none =>
              cases hw : it.writeException with
              | some e => simp [downloadLoop, hty, hskip, hf, hw, ih]
              | none => simp [downloadLoop, hty, hskip, hf, hw, ih, FS.writeFile]
      · simp [downloadLoop, hty, ih]

/-- Frame property of the download loop: a path that is not the target
directory joined with the name of some selected file-type item keeps its
content. -/
theorem downloadLoop_frame (td : Path) (pfx : Option String) (fs : FS)
    (items : List BoxItemBehavior) (p : Path)
    (h : ∀ it ∈ items, itemSelected pfx it = true → p ≠ td ++ [it.name]) :
    (downloadLoop td pfx fs items).1.lookupFile p = fs.lookupFile p := by
  induction items generalizing fs with
  | nil => simp [downloadLoop]
  | cons it rest ih =>
      have hrest : ∀ it2 ∈ rest, itemSelected pfx it2 = true → p ≠ td ++ [it2.name] := by
        intro it2 hmem hsel
        exact h it2 (List.mem_cons_of_mem _ hmem) hsel
      by_cases hty : it.type = "file"
      · by_cases hskip : prefixSkips pfx it.name = true
        · simp [downloadLoop, hty, hskip, ih _ hrest]
        · cases hf : it.fetchException with
          | some e => simp [downloadLoop, hty, hskip, hf, ih _ hrest]
          | none =>
              cases hw : it.writeException with
              | some e => simp [downloadLoop, hty, hskip, hf, hw, ih _ hrest]
              | none =>
                  have hsel : itemSelected pfx it = true := by
                    simp [itemSelected, hty, hskip]
                  have hp : p ≠ td ++ [it.name] :=
                    h it (List.mem_cons_self _ _) hsel
                  simp only [downloadLoop, hty, hskip, hf, hw, if_pos, if_neg,
                             Bool.false_eq_true, ite_false, ite_true]
                  rw [ih _ hrest, FS.lookupFile_writeFile, if_neg hp]
      · simp [downloadLoop, hty, ih _ hrest]

/-- With all credentials present and no construction failure, the factory
yields a client and prints nothing. -/
theorem get_box_client_ok (env : Env) (hc : credsPresent env = true) :
    get_box_client env none = (some (), []) := by
  simp [get_box_client, hc]

/-- The client factory performs no network round-trip on any path. -/
theorem get_box_client_no_net (env : Env) (authEx : Option String) :
    (get_box_client env authEx).2.all (fun e => !(e.isNet)) = true := by
  unfold get_box_client
  by_cases hc : credsPresent env
  · cases authEx <;> simp [hc, Event.isNet]
  · simp [hc, Event.isNet]

/-- Python's falsy test on the prefix filter agrees with `startswith`
whenever the configured prefix is nonempty. -/
theorem not_prefixSkips (p name : String) (hp : p.isEmpty = false) :
    (!(prefixSkips (some p) name)) = startswith name p := by
  simp [prefixSkips, hp]

/-- A nonempty path is one of its own ancestors. -/
theorem self_mem_ancestors (p : Path) (h : p ≠ []) : p ∈ ancestors p := by
  unfold ancestors
  have hl : 0 < p.length := List.length_pos.mpr h
  refine List.mem_map.mpr ⟨p.length - 1, List.mem_range.mpr (by omega), ?_⟩
  rw [Nat.sub_add_cancel hl]
  exact List.take_length p

/-- A string starting with character `c` differs from any string that does
not start with `c`, whatever its tail. -/
theorem append_ne_of_head_ne (pre x b : String) (c : Char)
    (hpre : pre.data.head? = some c) (hb : b.data.head? ≠ some c) :
    pre ++ x ≠ b := by
  intro e
  apply hb
  have h2 : (pre ++ x).data.head? = b.data.head? := by rw [e]
  rw [String.data_append, List.head?_append, hpre] at h2
  simpa using h2.symm

/-- Normal form of `download_box_files` on the happy path: client obtained,
folder resolved, directory created, enumeration completed. -/
theorem download_box_files_ok (w : DownloadWorld) (folderId : String)
    (td : Path) (pfx : Option String) (fs0 : FS) (fname : String)
    (hc : credsPresent w.env = true) (ha : w.authException = none)
    (hfr : w.folderResolution = Except.ok fname)
    (hmk : w.makedirsException = none) (henum : w.enumException = none) :
    download_box_files w folderId td pfx fs0 =
      (Except.ok (downloadLoop td pfx (fs0.makedirs td) w.items).2.1,
       (downloadLoop td pfx (fs0.makedirs td) w.items).1,
       Event.netFolderGet folderId ::
       Event.log ("Accessing Box folder " ++ fname ++ " (ID: " ++ folderId ++ ")...") ::
       Event.fsMakeDirs td ::
       Event.log ("Checking files in Box folder " ++ fname ++ "...") ::
       ((downloadLoop td pfx (fs0.makedirs td) w.items).2.2 ++
        [Event.log "Downloaded files listed."])) := by
  have hcl : get_box_client w.env w.authException = (some (), []) := by
    rw [ha]
    exact get_box_client_ok w.env hc
  simp [download_box_files, hcl, hfr, hmk, henum]

/-- Normal form of `download_box_files` when the folder enumeration itself
raises after yielding its items. -/
theorem download_box_files_enumErr (w : DownloadWorld) (folderId : String)
    (td : Path) (pfx : Option String) (fs0 : FS) (fname err : String)
    (hc : credsPresent w.env = true) (ha : w.authException = none)
    (hfr : w.folderResolution = Except.ok fname)
    (hmk : w.makedirsException = none) (henum : w.enumException = some err) :
    download_box_files w folderId td pfx fs0 =
      (Except.error err,
       (downloadLoop td pfx (fs0.makedirs td) w.items).1,
       Event.netFolderGet folderId ::
       Event.log ("Accessing Box folder " ++ fname ++ " (ID: " ++ folderId ++ ")...") ::
       Event.fsMakeDirs td ::
       Event.log ("Checking files in Box folder " ++ fname ++ "...") ::
       (downloadLoop td pfx (fs0.makedirs td) w.items).2.2) := by
  have hcl : get_box_client w.env w.authException = (some (), []) := by
    rw [ha]
    exact get_box_client_ok w.env hc
  simp [download_box_files, hcl, hfr, hmk, henum]

/-- C4: for every credential configuration in which at least one of client
id, client secret, or refresh token is missing (falsy), the client factory
returns no client and performs no network call. -/
theorem C4_missing_credentials (env : Env) (authEx : Option String)
    (h : truthy env.BOX_CLIENT_ID = false ∨ truthy env.BOX_CLIENT_SECRET = false ∨
         truthy env.BOX_REFRESH_TOKEN = false) :
    (get_box_client env authEx).1 = none ∧
    (get_box_client env authEx).2.all (fun e => !(e.isNet)) = true := by
  have hc : credsPresent env = false := by
    unfold credsPresent
    rcases h with h | h | h <;> simp [h]
  exact ⟨by simp [get_box_client, hc], get_box_client_no_net env authEx⟩

/-- Witness for C4 at a configuration with the client id unset. -/
theorem C4_witness :
    (get_box_client { BOX_CLIENT_ID := none, BOX_CLIENT_SECRET := some "csec",
                      BOX_REFRESH_TOKEN := some "rtok" } none).1 = none ∧
    (get_box_client { BOX_CLIENT_ID := none, BOX_CLIENT_SECRET := some "csec",
                      BOX_REFRESH_TOKEN := some "rtok" } none).2.all
      (fun e => !(e.isNet)) = true :=
  C4_missing_credentials _ none (Or.inl rfl)

/-- C9: a credential configured as the empty string is treated by the
truthiness check the same as an absent one: the factory returns the
no-client sentinel. -/
theorem C9_empty_string_credential (env : Env) (authEx : Option String)
    (h : env.BOX_CLIENT_ID = some "" ∨ env.BOX_CLIENT_SECRET = some "" ∨
         env.BOX_REFRESH_TOKEN = some "") :
    (get_box_client env authEx).1 = none := by
  have h0 : truthy (some "") = false := by decide
  have hc : credsPresent env = false := by
    unfold credsPresent
    rcases h with h | h | h <;> rw [h, h0] <;> simp
  simp [get_box_client, hc]

/-- Witness for C9 at a configuration with an empty-string client id. -/
theorem C9_witness :
    (get_box_client { BOX_CLIENT_ID := some "", BOX_CLIENT_SECRET := some "csec",
                      BOX_REFRESH_TOKEN := some "rtok" } none).1 = none :=
  C9_empty_string_credential _ none (Or.inl rfl)

/-- C5: for every local path that does not exist, the upload operation
returns the no-result sentinel without attempting any network call. -/
theorem C5_upload_nonexistent_path (w : UploadWorld) (folderId : String)
    (fp : Path) (fs : FS) (h : fs.existsPath fp = false) :
    (upload_file_to_box w folderId fp fs).1 = Except.ok none ∧
    (upload_file_to_box w folderId fp fs).2.all (fun e => !(e.isNet)) = true := by
  have hnet := get_box_client_no_net w.env w.authException
  unfold upload_file_to_box
  cases hcl : (get_box_client w.env w.authException).1 with
  | none =>
      refine ⟨by simp [hcl], ?_⟩
      simpa [hcl] using hnet
  | some u =>
      refine ⟨by simp [hcl, h], ?_⟩
      simp only [hcl, h]
      simp [List.all_append, Event.isNet, hnet]
      intro x hx
      have h2 := List.all_eq_true.mp hnet x hx
      simpa [Event.isNet] using h2

/-- Witness for C5 at a path absent from the local filesystem. -/
theorem C5_witness :
    (upload_file_to_box wUploadOK "f2" ["out", "missing.csv"] fsWithFile).1 =
      Except.ok none ∧
    (upload_file_to_box wUploadOK "f2" ["out", "missing.csv"] fsWithFile).2.all
      (fun e => !(e.isNet)) = true :=
  C5_upload_nonexistent_path wUploadOK "f2" ["out", "missing.csv"] fsWithFile
    (by decide)

/-- C8: uploading an existing local file to a valid folder (the remote
accepts the upload and assigns a nonempty identifier) returns a file
handle whose identifier is nonempty and whose name is the base name of
the local path. -/
theorem C8_upload_success (w : UploadWorld) (folderId : String) (fp : Path)
    (fs : FS) (fname newId : String)
    (hc : credsPresent w.env = true) (ha : w.authException = none)
    (hex : fs.existsPath fp = true)
    (hfr : w.folderResolution = Except.ok fname)
    (hup : w.uploadResult = Except.ok newId) (hid : newId ≠ "") :
    ∃ bf : BoxFile, (upload_file_to_box w folderId fp fs).1 = Except.ok (some bf) ∧
      bf.id ≠ "" ∧ bf.name = basename fp := by
  have hcl : get_box_client w.env w.authException = (some (), []) := by
    rw [ha]
    exact get_box_client_ok w.env hc
  refine ⟨{ id := newId, name := basename fp }, ?_, hid, rfl⟩
  simp [upload_file_to_box, hcl, hex, hfr, hup]

/-- Witness for C8 at an existing file and an accepting remote folder. -/
theorem C8_witness :
    ∃ bf : BoxFile,
      (upload_file_to_box wUploadOK "f2" ["out", "res.csv"] fsWithFile).1 =
        Except.ok (some bf) ∧
      bf.id ≠ "" ∧ bf.name = basename ["out", "res.csv"] :=
  C8_upload_success wUploadOK "f2" ["out", "res.csv"] fsWithFile "Results"
    "987654" (by decide) rfl (by decide) rfl rfl (by decide)

/-- C3: whenever the client is obtained, the folder resolves, the target
directory is created and the enumeration completes, per-item fetch or
write failures are caught and skipped without aborting the remaining
transfers, the call does not raise, and it returns exactly the names of
the items whose fetch and write completed, in enumeration order. -/
theorem C3_partial_failures (w : DownloadWorld) (folderId : String)
    (td : Path) (pfx : Option String) (fs0 : FS) (fname : String)
    (hc : credsPresent w.env = true) (ha : w.authException = none)
    (hfr : w.folderResolution = Except.ok fname)
    (hmk : w.makedirsException = none) (henum : w.enumException = none) :
    (download_box_files w folderId td pfx fs0).1 =
      Except.ok ((w.items.filter (itemSucceeds pfx)).map BoxItemBehavior.name) := by
  rw [download_box_files_ok w folderId td pfx fs0 fname hc ha hfr hmk henum]
  simp [downloadLoop_names]

/-- Witness for C3: three items with the second item's fetch raising; the
call returns the first and third names. -/
theorem C3_witness :
    (download_box_files wItemFailScenario "f1" ["data"] none fsEmpty).1 =
      Except.ok ["a.csv", "c.csv"] := by
  rw [C3_partial_failures wItemFailScenario "f1" ["data"] none fsEmpty "Data"
      (by decide) rfl rfl rfl rfl]
  decide

/-- C2: in the concrete scenario with items cleaned_a.csv, b.csv and
cleaned_c.txt and prefix filter cleaned_, the download returns exactly the
two matching names, writes exactly those two files under the target
directory, and neither fetches nor writes b.csv; and in general, with a
nonempty configured prefix and all per-item transfers succeeding, a
file-type item's name appears in the result exactly when it starts with
the prefix. -/
theorem C2_prefix_filter :
    ((download_box_files wPrefixScenario "f1" ["data"] (some "cleaned_") fsEmpty).1 =
       Except.ok ["cleaned_a.csv", "cleaned_c.txt"] ∧
     (download_box_files wPrefixScenario "f1" ["data"] (some "cleaned_") fsEmpty).2.1.files =
       [(["data", "cleaned_c.txt"], [30]), (["data", "cleaned_a.csv"], [10])] ∧
     (download_box_files wPrefixScenario "f1" ["data"] (some "cleaned_") fsEmpty).2.2.all
       (fun e => !(e.fetches "b.csv") && !(e.writesAt ["data", "b.csv"])) = true) ∧
    (∀ (w : DownloadWorld) (folderId : String) (td : Path) (p : String)
       (fs0 : FS) (fname : String),
       credsPresent w.env = true → w.authException = none →
       w.folderResolution = Except.ok fname →
       w.makedirsException = none → w.enumException = none →
       p.isEmpty = false →
       (∀ it ∈ w.items, it.fetchException = none ∧ it.writeException = none) →
       (download_box_files w folderId td (some p) fs0).1 =
         Except.ok ((w.items.filter
           (fun it => (it.type = "file" : Bool) && startswith it.name p)).map
           BoxItemBehavior.name)) := by
  constructor
  · exact ⟨by decide, by decide, by decide⟩
  · intro w folderId td p fs0 fname hc ha hfr hmk henum hp hok
    rw [download_box_files_ok w folderId td (some p) fs0 fname hc ha hfr hmk henum]
    simp only [downloadLoop_names]
    congr 1
    congr 1
    apply List.filter_congr
    intro it hmem
    obtain ⟨hf, hw⟩ := hok it hmem
    simp [itemSucceeds, hf, hw, not_prefixSkips p it.name hp]

/-- Witness for the general part of C2 at the concrete scenario world. -/
theorem C2_witness :
    (download_box_files wPrefixScenario "f1" ["data"] (some "cleaned_") fsEmpty).1 =
      Except.ok ((wPrefixScenario.items.filter
        (fun it => (it.type = "file" : Bool) && startswith it.name "cleaned_")).map
        BoxItemBehavior.name) :=
  C2_prefix_filter.2 wPrefixScenario "f1" ["data"] "cleaned_" fsEmpty "Data"
    (by decide) rfl rfl rfl rfl (by decide) (by decide)

/-- C6: the download fails closed: with no client it returns an empty
list; a remote 404 on folder resolution returns an empty list and logs
the not-found hint but not the unauthorized hint; a remote 401 returns an
empty list and logs the unauthorized hint but not the not-found hint; and
the two hints differ. -/
theorem C6_fail_closed (w0 wa wb : DownloadWorld) (folderId : String)
    (td : Path) (pfx : Option String) (fs0 : FS) (ma mb : String)
    (h0 : (get_box_client w0.env w0.authException).1 = none)
    (hca : credsPresent wa.env = true) (haa : wa.authException = none)
    (hfra : wa.folderResolution = Except.error (PyExn.boxAPI 404 ma))
    (hcb : credsPresent wb.env = true) (hab : wb.authException = none)
    (hfrb : wb.folderResolution = Except.error (PyExn.boxAPI 401 mb)) :
    (download_box_files w0 folderId td pfx fs0).1 = Except.ok [] ∧
    ((download_box_files wa folderId td pfx fs0).1 = Except.ok [] ∧
     Event.log hint404 ∈ (download_box_files wa folderId td pfx fs0).2.2 ∧
     Event.log hint401 ∉ (download_box_files wa folderId td pfx fs0).2.2) ∧
    ((download_box_files wb folderId td pfx fs0).1 = Except.ok [] ∧
     Event.log hint401 ∈ (download_box_files wb folderId td pfx fs0).2.2 ∧
     Event.log hint404 ∉ (download_box_files wb folderId td pfx fs0).2.2) ∧
    hint404 ≠ hint401 := by
  have hcla : get_box_client wa.env wa.authException = (some (), []) := by
    rw [haa]
    exact get_box_client_ok wa.env hca
  have hclb : get_box_client wb.env wb.authException = (some (), []) := by
    rw [hab]
    exact get_box_client_ok wb.env hcb
  have hE : ("ERROR: Box API access failed for folder ID ").data.head? =
      some (Char.ofNat 69) := by decide
  have hne404 : ∀ x : String,
      "ERROR: Box API access failed for folder ID " ++ x ≠ hint404 := fun x =>
    append_ne_of_head_ne _ x hint404 (Char.ofNat 69) hE (by decide)
  have hne401 : ∀ x : String,
      "ERROR: Box API access failed for folder ID " ++ x ≠ hint401 := fun x =>
    append_ne_of_head_ne _ x hint401 (Char.ofNat 69) hE (by decide)
  have htra : download_box_files wa folderId td pfx fs0 =
      (Except.ok [], fs0,
       [Event.netFolderGet folderId,
        Event.log ("ERROR: Box API access failed for folder ID " ++
          (folderId ++ (": " ++ (toString 404 ++ (" - " ++ ma))))),
        Event.log hint404]) := by
    simp [download_box_files, hcla, hfra]
  have htrb : download_box_files wb folderId td pfx fs0 =
      (Except.ok [], fs0,
       [Event.netFolderGet folderId,
        Event.log ("ERROR: Box API access failed for folder ID " ++
          (folderId ++ (": " ++ (toString 401 ++ (" - " ++ mb))))),
        Event.log hint401]) := by
    simp [download_box_files, hclb, hfrb]
  refine ⟨?_, ⟨?_, ?_, ?_⟩, ⟨?_, ?_, ?_⟩, by decide⟩
  · simp [download_box_files, h0]
  · rw [htra]
  · rw [htra]
    simp
  · rw [htra]
    intro hmem
    simp only [List.mem_cons, List.not_mem_nil, or_false] at hmem
    rcases hmem with hmem | hmem | hmem
    · exact absurd hmem (by simp)
    · exact hne401 _ (Event.log.inj hmem).symm
    · exact absurd (Event.log.inj hmem) (by decide)
  · rw [htrb]
  · rw [htrb]
    simp
  · rw [htrb]
    intro hmem
    simp only [List.mem_cons, List.not_mem_nil, or_false] at hmem
    rcases hmem with hmem | hmem | hmem
    · exact absurd hmem (by simp)
    · exact hne404 _ (Event.log.inj hmem).symm
    · exact absurd (Event.log.inj hmem) (by decide)

/-- Witness for C6 at three concrete worlds: a failing client
construction, a 404 rejection, and a 401 rejection. -/
theorem C6_witness :
    (download_box_files wNoClient "f1" ["data"] none fsEmpty).1 = Except.ok [] ∧
    Event.log hint404 ∈ (download_box_files wNotFound "f1" ["data"] none fsEmpty).2.2 ∧
    Event.log hint401 ∈ (download_box_files wUnauthorized "f1" ["data"] none fsEmpty).2.2 := by
  have h := C6_fail_closed wNoClient wNotFound wUnauthorized "f1" ["data"] none
    fsEmpty "Not Found" "Unauthorized" (by decide) (by decide) rfl rfl
    (by decide) rfl rfl
  exact ⟨h.1, h.2.1.2.1, h.2.2.1.2.1⟩

/-- C7: whenever folder resolution succeeds and `os.makedirs` does not
itself fail, the download operation creates the (nonempty) target
directory, together with every missing ancestor, and the creation event
precedes every file-write event in the trace. -/
theorem C7_creates_target_dir (w : DownloadWorld) (folderId : String)
    (td : Path) (pfx : Option String) (fs0 : FS) (fname : String)
    (hc : credsPresent w.env = true) (ha : w.authException = none)
    (hfr : w.folderResolution = Except.ok fname)
    (hmk : w.makedirsException = none) (htd : td ≠ []) :
    (∀ d ∈ ancestors td, d ∈ (download_box_files w folderId td pfx fs0).2.1.dirs) ∧
    td ∈ (download_box_files w folderId td pfx fs0).2.1.dirs ∧
    ∃ pre post, (download_box_files w folderId td pfx fs0).2.2 =
        pre ++ Event.fsMakeDirs td :: post ∧ ∀ e ∈ pre, e.isWrite = false := by
  have hdirs : ∀ r : Except String (List String) × FS × List Event,
      r.2.1.dirs = ancestors td ++ fs0.dirs →
      (∀ d ∈ ancestors td, d ∈ r.2.1.dirs) ∧ td ∈ r.2.1.dirs := by
    intro r hr
    rw [hr]
    exact ⟨fun d hd => List.mem_append_left _ hd,
           List.mem_append_left _ (self_mem_ancestors td htd)⟩
  have hpre : ∀ e ∈ [Event.netFolderGet folderId,
      Event.log ("Accessing Box folder " ++ fname ++ " (ID: " ++ folderId ++ ")...")],
      Event.isWrite e = false := by
    intro e he
    simp only [List.mem_cons, List.not_mem_nil, or_false] at he
    rcases he with rfl | rfl <;> rfl
  cases henum : w.enumException with
  | none =>
      rw [download_box_files_ok w folderId td pfx fs0 fname hc ha hfr hmk henum]
      refine ⟨(hdirs _ ?_).1, (hdirs _ ?_).2, ?_⟩
      · rw [downloadLoop_dirs]
        rfl
      · rw [downloadLoop_dirs]
        rfl
      · exact ⟨_, _, rfl, hpre⟩
  | some err =>
      rw [download_box_files_enumErr w folderId td pfx fs0 fname err hc ha hfr hmk henum]
      refine ⟨(hdirs _ ?_).1, (hdirs _ ?_).2, ?_⟩
      · rw [downloadLoop_dirs]
        rfl
      · rw [downloadLoop_dirs]
        rfl
      · exact ⟨_, _, rfl, hpre⟩

/-- Witness for C7: a fresh filesystem and a not-yet-existing target
directory. -/
theorem C7_witness :
    ["data"] ∈ (download_box_files wPrefixScenario "f1" ["data"]
      (some "cleaned_") fsEmpty).2.1.dirs := by
  have h := C7_creates_target_dir wPrefixScenario "f1" ["data"] (some "cleaned_")
    fsEmpty "Data" (by decide) rfl rfl rfl (by decide)
  exact h.2.1

/-- C10: whenever folder resolution succeeds (and the directory creation
does not raise), the target directory is created even when no item
matches, and every local path other than the target directory joined with
the name of a selected file-type item keeps its previous content. -/
theorem C10_write_frame (w : DownloadWorld) (folderId : String)
    (td : Path) (pfx : Option String) (fs0 : FS) (fname : String)
    (hc : credsPresent w.env = true) (ha : w.authException = none)
    (hfr : w.folderResolution = Except.ok fname)
    (hmk : w.makedirsException = none) (htd : td ≠ []) :
    td ∈ (download_box_files w folderId td pfx fs0).2.1.dirs ∧
    ∀ p : Path, (∀ it ∈ w.items, itemSelected pfx it = true → p ≠ td ++ [it.name]) →
      (download_box_files w folderId td pfx fs0).2.1.lookupFile p =
        fs0.lookupFile p := by
  cases henum : w.enumException with
  | none =>
      rw [download_box_files_ok w folderId td pfx fs0 fname hc ha hfr hmk henum]
      constructor
      · rw [downloadLoop_dirs]
        exact List.mem_append_left _ (self_mem_ancestors td htd)
      · intro p hp
        exact downloadLoop_frame td pfx (fs0.makedirs td) w.items p hp
  | some err =>
      rw [download_box_files_enumErr w folderId td pfx fs0 fname err hc ha hfr hmk henum]
      constructor
      · rw [downloadLoop_dirs]
        exact List.mem_append_left _ (self_mem_ancestors td htd)
      · intro p hp
        exact downloadLoop_frame td pfx (fs0.makedirs td) w.items p hp

/-- Witness for C10: a path under the target directory not named after
any selected item is left unchanged. -/
theorem C10_witness :
    (download_box_files wPrefixScenario "f1" ["data"] (some "cleaned_")
      fsEmpty).2.1.lookupFile ["data", "other.txt"] =
      fsEmpty.lookupFile ["data", "other.txt"] := by
  have h := C10_write_frame wPrefixScenario "f1" ["data"] (some "cleaned_")
    fsEmpty "Data" (by decide) rfl rfl rfl (by decide)
  exact h.2 ["data", "other.txt"] (by decide)

/-- C1 as stated is false: a failure of the local `os.makedirs` call
(line 89, outside every `try` block) escapes `download_box_files` as an
exception instead of being converted to the empty-list sentinel. -/
theorem C1_counterexample :
    (download_box_files wMakedirsFails "f1" ["data"] none fsEmpty).1 =
      Except.error "PermissionError: denied" := by decide

/-- C1 (amended): the upload operation never lets an exception escape on
any path, and the download operation never lets one escape provided the
directory creation and the folder item enumeration do not raise; these
two calls are the only uncovered operations. -/
theorem C1_amended_no_escape (wd : DownloadWorld) (wu : UploadWorld)
    (fidD fidU : String) (td fp : Path) (pfx : Option String) (fs0 fs1 : FS)
    (hmk : wd.makedirsException = none) (henum : wd.enumException = none) :
    exceptOk (download_box_files wd fidD td pfx fs0).1 = true ∧
    exceptOk (upload_file_to_box wu fidU fp fs1).1 = true := by
  constructor
  · unfold download_box_files
    cases hcl : (get_box_client wd.env wd.authException).1 with
    | none => simp [hcl, exceptOk]
    | some u =>
        cases hfr : wd.folderResolution with
        | error e => cases e <;> simp [hcl, hfr, exceptOk]
        | ok fname => simp [hcl, hfr, hmk, henum, exceptOk]
  · unfold upload_file_to_box
    cases hcl : (get_box_client wu.env wu.authException).1 with
    | none => simp [hcl, exceptOk]
    | some u =>
        by_cases hex : fs1.existsPath fp
        · cases hfr : wu.folderResolution with
          | error e => cases e <;> simp [hcl, hex, hfr, exceptOk]
          | ok fn =>
              cases hup : wu.uploadResult with
              | error e => cases e <;> simp [hcl, hex, hfr, hup, exceptOk]
              | ok nid => simp [hcl, hex, hfr, hup, exceptOk]
        · simp [hcl, hex, exceptOk]

/-- Witness for the amended C1 at concrete download and upload worlds. -/
theorem C1_witness :
    exceptOk (download_box_files wItemFailScenario "f1" ["data"] none fsEmpty).1 = true ∧
    exceptOk (upload_file_to_box wUploadOK "f2" ["out", "res.csv"] fsWithFile).1 = true :=
  C1_amended_no_escape wItemFailScenario wUploadOK "f1" "f2" ["data"]
    ["out", "res.csv"] none fsEmpty fsWithFile rfl rfl

end BoxOps
